import Mathlib

/-!
Shallow embedding of the lklogger logging engine (src/logging.go, package
`config`): the layered configuration resolution (`loadConfig` / `Init`),
pipeline construction (`newCoreFromConfig` / `NewLoggerFromConfig` /
`NewServiceLogger`) and the write-time mirroring behavior of the
`LoggerBase` methods (`Debug` / `Info` / `Warn` / `Error` / `Fatal`).

External collaborators (viper, zap, lumberjack) are embedded at the level
of their documented semantics where the Go code calls into them: the
configuration file and the environment are per-field presence maps, a zap
core is a level threshold plus a list of (encoder, sink) pairs, and an
emit is the list of (sink, record) writes it produces.
-/

set_option autoImplicit false

namespace LkLogger

/-- zapcore.Level: Debug = -1, Info = 0, Warn = 1, Error = 2, DPanic = 3,
Panic = 4, Fatal = 5.  Ordering is by the numeric value. -/
inductive ZapLevel where
  | debug
  | info
  | warn
  | error
  | dpanic
  | panicLvl
  | fatal
  deriving DecidableEq, Repr

/-- The numeric value of a zapcore.Level. -/
def ZapLevel.toInt : ZapLevel → Int
  | .debug => -1
  | .info => 0
  | .warn => 1
  | .error => 2
  | .dpanic => 3
  | .panicLvl => 4
  | .fatal => 5

/-- LogConfig (logging.go lines 18-26): the log configuration structure.
Go `int` fields are embedded as `Int` (no claim exercises overflow),
strings and bools directly. -/
structure LogConfig where
  Level : String
  Format : String
  OutputDir : String
  MaxSizeMB : Int
  MaxBackupFiles : Int
  MaxAgeDays : Int
  Compress : Bool
  deriving DecidableEq, Repr

/-- Rune-wise lowercase, embedding Go's `strings.ToLower`.  `Char.toLower`
lowers the ASCII range; Go additionally lowers non-ASCII runes, but the only
non-ASCII rune whose Go lowercase is a letter of the four level keywords is
U+0130 (to `i`), which can only turn a string into `"info"` — and the
fallback result is info anyway, so the two functions give `stringToZapLevel`
the same value on every string. -/
def goToLower (s : String) : String :=
  ⟨s.data.map Char.toLower⟩

/-- stringToZapLevel (logging.go lines 43-56): switch on
`strings.ToLower(s)` with fallback to InfoLevel. -/
def stringToZapLevel (s : String) : ZapLevel :=
  match goToLower s with
  | "debug" => ZapLevel.debug
  | "info" => ZapLevel.info
  | "warn" => ZapLevel.warn
  | "error" => ZapLevel.error
  | _ => ZapLevel.info

/-- The override-application block of Init (logging.go lines 112-135),
factored as a function of the resolved config and the override struct:
each string field is overridden when non-empty, each int field when
non-zero, and `Compress` only when the override value is `false`. -/
def applyOverride (cfg o : LogConfig) : LogConfig :=
  { Level := if o.Level ≠ "" then o.Level else cfg.Level
    Format := if o.Format ≠ "" then o.Format else cfg.Format
    OutputDir := if o.OutputDir ≠ "" then o.OutputDir else cfg.OutputDir
    MaxSizeMB := if o.MaxSizeMB ≠ 0 then o.MaxSizeMB else cfg.MaxSizeMB
    MaxBackupFiles := if o.MaxBackupFiles ≠ 0 then o.MaxBackupFiles else cfg.MaxBackupFiles
    MaxAgeDays := if o.MaxAgeDays ≠ 0 then o.MaxAgeDays else cfg.MaxAgeDays
    Compress := if !o.Compress then o.Compress else cfg.Compress }

/-- `stringToZapLevel` only ever produces one of the four configurable
levels (shared helper; the match has five arms, all landing in this set). -/
theorem stringToZapLevel_cases (s : String) :
    stringToZapLevel s = ZapLevel.debug ∨ stringToZapLevel s = ZapLevel.info ∨
    stringToZapLevel s = ZapLevel.warn ∨ stringToZapLevel s = ZapLevel.error := by
  unfold stringToZapLevel
  split <;> simp

/-- The numeric value of any configured threshold is at most 2 (ErrorLevel),
hence strictly below DPanic (3) and Fatal (5). Shared helper. -/
theorem stringToZapLevel_toInt_le_two (s : String) :
    (stringToZapLevel s).toInt ≤ 2 := by
  rcases stringToZapLevel_cases s with h | h | h | h <;> rw [h] <;> decide

/-- A structured key/value field (zap.String produces these; GetField at
logging.go lines 290-292 is exactly zap.String). -/
structure Field where
  key : String
  value : String
  deriving DecidableEq, Repr

/-- A log record as it reaches a sink: level, message and the ordered field
list (timestamp and caller location are environment-supplied and carry no
claim content, so they are not modelled). -/
structure LogRecord where
  level : ZapLevel
  msg : String
  fields : List Field
  deriving DecidableEq, Repr

/-- lumberjack.Logger as configured by getLumberjack (logging.go 211-219). -/
structure LumberjackLogger where
  Filename : String
  MaxSize : Int
  MaxBackups : Int
  MaxAge : Int
  Compress : Bool
  deriving DecidableEq, Repr

/-- An output sink: the process stdout console, or a rotating file. -/
inductive Sink where
  | console
  | file (lj : LumberjackLogger)
  deriving DecidableEq, Repr

/-- Encoder selection of newCoreFromConfig: JSON when format is "json",
otherwise console encoding, colored for stdout and plain for the file. -/
inductive EncoderKind where
  | jsonEnc
  | consoleColor
  | consolePlain
  deriving DecidableEq, Repr

/-- One zapcore.NewCore result: an encoder bound to a write syncer.  The
level is kept on the enclosing `Core` because newCoreFromConfig builds every
sub-core from the one shared `atomicLevel` (logging.go 169, 193, 200). -/
structure SubCore where
  encoder : EncoderKind
  sink : Sink
  deriving DecidableEq, Repr

/-- The pipeline newCoreFromConfig returns: the shared level threshold and
the teed sub-cores (a single-element list when there is no tee). -/
structure Core where
  threshold : ZapLevel
  cores : List SubCore
  deriving DecidableEq, Repr

/-- A zap.Logger as built by NewLoggerFromConfig: its core plus the fields
attached with zap.Fields (the service_name context field for non-"All"
loggers).  AddCaller/AddCallerSkip only affect the caller column and are
not modelled. -/
structure ZapLogger where
  core : Core
  contextFields : List Field
  deriving DecidableEq, Repr

/-- getLumberjack (logging.go lines 211-219). -/
def getLumberjack (filePath : String) (maxSize maxBackups maxAge : Int)
    (compress : Bool) : LumberjackLogger :=
  ⟨filePath, maxSize, maxBackups, maxAge, compress⟩

/-- filepath.Join for the two-component call at logging.go line 166.  The Go
function also lexically cleans the result (e.g. drops a leading "./"); no
claim inspects the path string, so cleaning is elided. -/
def filepathJoin (dir name : String) : String :=
  if dir = "" then name else dir ++ "/" ++ name

/-- The console encoder chosen at logging.go lines 175-189. -/
def consoleEncoderFor (format : String) : EncoderKind :=
  if goToLower format = "json" then EncoderKind.jsonEnc
  else EncoderKind.consoleColor

/-- The file encoder chosen at logging.go lines 175-189. -/
def fileEncoderFor (format : String) : EncoderKind :=
  if goToLower format = "json" then EncoderKind.jsonEnc
  else EncoderKind.consolePlain

/-- newCoreFromConfig (logging.go lines 162-203): one shared atomic level;
for service "All" the pipeline is the file core alone, otherwise a tee of
the stdout console core and the file core. -/
def newCoreFromConfig (cfg : LogConfig) (serviceName : String) : Core :=
  let level := stringToZapLevel cfg.Level
  let logPath := filepathJoin cfg.OutputDir (serviceName ++ ".log")
  let serviceFileLogger := getLumberjack logPath cfg.MaxSizeMB
    cfg.MaxBackupFiles cfg.MaxAgeDays cfg.Compress
  let fileCore : SubCore := ⟨fileEncoderFor cfg.Format, Sink.file serviceFileLogger⟩
  if serviceName = "All" then
    ⟨level, [fileCore]⟩
  else
    ⟨level, [⟨consoleEncoderFor cfg.Format, Sink.console⟩, fileCore]⟩

/-- NewLoggerFromConfig (logging.go lines 143-151): the "All" logger carries
no service_name field; every other logger is built with
zap.Fields(zap.String("service_name", serviceName)). -/
def NewLoggerFromConfig (cfg : LogConfig) (serviceName : String) : ZapLogger :=
  if serviceName = "All" then
    ⟨newCoreFromConfig cfg serviceName, []⟩
  else
    ⟨newCoreFromConfig cfg serviceName, [⟨"service_name", serviceName⟩]⟩

/-- One leveled write through a zap logger: the shared threshold is checked
once; when the record's level is enabled, every sub-core's sink receives the
record (context fields coming before the call-site fields, as zap encodes
them); otherwise no sink receives anything. -/
def ZapLogger.write (lg : ZapLogger) (lvl : ZapLevel) (msg : String)
    (fields : List Field) : List (Sink × LogRecord) :=
  if lg.core.threshold.toInt ≤ lvl.toInt then
    lg.core.cores.map fun sc => (sc.sink, ⟨lvl, msg, lg.contextFields ++ fields⟩)
  else []

/-- The state of one key of the merged viper settings map, as seen by
`v.Unmarshal`: absent everywhere, present with a value that decodes to the
target field type, or present with a value that does not decode (for example
a YAML list where a string is expected, or a non-numeric string for an int
field — viper unmarshals with weakly-typed input, so numeric strings decode).
For string-typed fields `badType` is effectively unreachable but harmless. -/
inductive FieldVal (α : Type) where
  | absent
  | ok (a : α)
  | badType
  deriving DecidableEq, Repr

/-- viper precedence between an environment value and a config-file value
for one key: the environment wins when it is present (AutomaticEnv with the
LK prefix, logging.go lines 89-92); otherwise the file value stands. -/
def FieldVal.withFallback {α : Type} (file env : FieldVal α) : FieldVal α :=
  match env with
  | .absent => file
  | v => v

/-- Is this merged value present but undecodable? -/
def FieldVal.isBad {α : Type} : FieldVal α → Bool
  | .badType => true
  | _ => false

/-- The `logger` section of the configuration inputs, one `FieldVal` per
key of LogConfig (the mapstructure keys of logging.go lines 18-26). -/
structure PartialConfig where
  level : FieldVal String
  format : FieldVal String
  output_dir : FieldVal String
  max_size_mb : FieldVal Int
  max_backup_files : FieldVal Int
  max_age_days : FieldVal Int
  compress : FieldVal Bool
  deriving DecidableEq, Repr

/-- The configuration source at `configPath` as `v.ReadInConfig` sees it:
no file at the path, a file that fails YAML parsing, or a parsed section. -/
inductive ConfigSource where
  | absent
  | malformed
  | parsed (p : PartialConfig)
  deriving DecidableEq, Repr

/-- A PartialConfig with every key absent. -/
def emptyPartial : PartialConfig :=
  ⟨.absent, .absent, .absent, .absent, .absent, .absent, .absent⟩

/-- What the configuration file contributes to the merged settings: both a
missing file and a YAML-parse failure contribute nothing (logging.go lines
67-78 only log in either case and fall through). -/
def ConfigSource.settings : ConfigSource → PartialConfig
  | .parsed p => p
  | _ => emptyPartial

/-- One key of `v.Unmarshal`: viper's Get applies env-over-file-over-default
precedence (defaults are registered for every key at logging.go lines
80-87), then mapstructure decodes the value — `none` is a decode failure. -/
def resolveField {α : Type} (dflt : α) (file env : FieldVal α) : Option α :=
  match file.withFallback env with
  | .absent => some dflt
  | .ok a => some a
  | .badType => none

/-- The hard-coded defaults (logging.go lines 80-87). -/
def defaultLogConfig : LogConfig :=
  ⟨"info", "text", "./log", 10, 7, 7, false⟩

/-- The unmarshal step of loadConfig: every key decodes, or the whole
unmarshal fails. -/
def loadConfigOpt (file env : PartialConfig) : Option LogConfig := do
  let l ← resolveField "info" file.level env.level
  let fm ← resolveField "text" file.format env.format
  let od ← resolveField "./log" file.output_dir env.output_dir
  let ms ← resolveField 10 file.max_size_mb env.max_size_mb
  let mb ← resolveField 7 file.max_backup_files env.max_backup_files
  let ma ← resolveField 7 file.max_age_days env.max_age_days
  let cp ← resolveField false file.compress env.compress
  pure ⟨l, fm, od, ms, mb, ma, cp⟩

/-- The two ways loadConfig can end: returning a config, or killing the
process via `log.Fatalf` (logging.go line 101), which calls os.Exit(1). -/
inductive LoadOutcome where
  | completed (cfg : LogConfig)
  | processKilled
  deriving DecidableEq, Repr

/-- loadConfig (logging.go lines 59-104): a missing or unparsable file is
only logged; defaults are registered for every key; the environment
overrides the file; a failed unmarshal is `log.Fatalf`, i.e. process
death. -/
def loadConfig (src : ConfigSource) (env : PartialConfig) : LoadOutcome :=
  match loadConfigOpt src.settings env with
  | some cfg => LoadOutcome.completed cfg
  | none => LoadOutcome.processKilled

/-- Does any key of the merged settings hold an undecodable value? -/
def mergedBad (file env : PartialConfig) : Bool :=
  (file.level.withFallback env.level).isBad
  || (file.format.withFallback env.format).isBad
  || (file.output_dir.withFallback env.output_dir).isBad
  || (file.max_size_mb.withFallback env.max_size_mb).isBad
  || (file.max_backup_files.withFallback env.max_backup_files).isBad
  || (file.max_age_days.withFallback env.max_age_days).isBad
  || (file.compress.withFallback env.compress).isBad

/-- The process-wide mutable state of the package: the global `all` logger
(nil before Init, hence `Option`) and `currentConfig` (logging.go 35-40). -/
structure GlobalState where
  all : Option ZapLogger
  currentConfig : LogConfig
  deriving DecidableEq, Repr

/-- The Go zero value of LogConfig, the content of `currentConfig` before
Init has run. -/
def zeroLogConfig : LogConfig :=
  ⟨"", "", "", 0, 0, 0, false⟩

/-- The package state before Init: `all` is nil, `currentConfig` is zero. -/
def initialState : GlobalState :=
  ⟨none, zeroLogConfig⟩

/-- Init (logging.go lines 107-140): load, apply the optional override, and
build the global "All" logger from the final configuration.  `none` is the
process having been killed inside loadConfig. -/
def Init (src : ConfigSource) (env : PartialConfig)
    (overrideCfg : Option LogConfig) (_s : GlobalState) : Option GlobalState :=
  match loadConfig src env with
  | LoadOutcome.processKilled => none
  | LoadOutcome.completed cfg =>
    let final := match overrideCfg with
      | none => cfg
      | some o => applyOverride cfg o
    some ⟨some (NewLoggerFromConfig final "All"), final⟩

/-- LoggerBase (logging.go lines 29-33). -/
structure LoggerBase where
  Logger : ZapLogger
  WriteToAll : Bool
  ServiceName : String
  deriving DecidableEq, Repr

/-- NewServiceLogger (logging.go lines 154-160): reads whatever
`currentConfig` currently holds — there is no check that Init has run. -/
def NewServiceLogger (s : GlobalState) (serviceName : String)
    (writeToAll : Bool) : LoggerBase :=
  ⟨NewLoggerFromConfig s.currentConfig serviceName, writeToAll, serviceName⟩

/-- The sink writes produced by one non-fatal emit: those of the logger's
own pipeline and those of the global aggregate pipeline. -/
structure EmitResult where
  own : List (Sink × LogRecord)
  agg : List (Sink × LogRecord)
  deriving DecidableEq, Repr

/-- The shared body of the Debug/Info/Warn/Error methods (logging.go lines
240-278), which differ only in the level: write to the owned pipeline, and
when WriteToAll is set also write to the `all` logger with
zap.String("service_name", ServiceName) prepended to the field list.  The
deferred Sync calls flush both pipelines and produce no records. -/
def LoggerBase.emit (agg : ZapLogger) (lb : LoggerBase) (lvl : ZapLevel)
    (msg : String) (fields : List Field) : EmitResult :=
  ⟨lb.Logger.write lvl msg fields,
   if lb.WriteToAll then
     agg.write lvl msg (⟨"service_name", lb.ServiceName⟩ :: fields)
   else []⟩

/-- Debug (logging.go lines 240-248). -/
def LoggerBase.Debug (agg : ZapLogger) (lb : LoggerBase) (msg : String)
    (fields : List Field) : EmitResult :=
  lb.emit agg ZapLevel.debug msg fields

/-- Info (logging.go lines 250-258). -/
def LoggerBase.Info (agg : ZapLogger) (lb : LoggerBase) (msg : String)
    (fields : List Field) : EmitResult :=
  lb.emit agg ZapLevel.info msg fields

/-- Warn (logging.go lines 260-268). -/
def LoggerBase.Warn (agg : ZapLogger) (lb : LoggerBase) (msg : String)
    (fields : List Field) : EmitResult :=
  lb.emit agg ZapLevel.warn msg fields

/-- Error (logging.go lines 270-278). -/
def LoggerBase.Error (agg : ZapLogger) (lb : LoggerBase) (msg : String)
    (fields : List Field) : EmitResult :=
  lb.emit agg ZapLevel.error msg fields

/-- One observable step of the Fatal method, in program order. -/
inductive Effect where
  | aggWrite (sink : Sink) (r : LogRecord)
  | ownWrite (sink : Sink) (r : LogRecord)
  | processExit
  deriving DecidableEq, Repr

/-- Fatal (logging.go lines 280-288): when WriteToAll is set, first a DPanic
write to the `all` logger with zap.String("service_name", ServiceName) and
zap.String("FATAL", "Exit") prepended (DPanic on a production-built logger
logs and does not terminate); then the Fatal write on the owned pipeline,
after which zap calls os.Exit(1) — so the deferred Sync calls never run and
process exit is the unconditional final effect. -/
def LoggerBase.Fatal (agg : ZapLogger) (lb : LoggerBase) (msg : String)
    (fields : List Field) : List Effect :=
  (if lb.WriteToAll then
    (agg.write ZapLevel.dpanic msg
      (⟨"service_name", lb.ServiceName⟩ :: ⟨"FATAL", "Exit"⟩ :: fields)).map
      fun p => Effect.aggWrite p.1 p.2
  else [])
  ++ (lb.Logger.write ZapLevel.fatal msg fields).map
      (fun p => Effect.ownWrite p.1 p.2)
  ++ [Effect.processExit]

/-- A level is one of the four non-fatal emit levels. -/
def nonFatalLevel (lvl : ZapLevel) : Prop :=
  lvl = ZapLevel.debug ∨ lvl = ZapLevel.info ∨ lvl = ZapLevel.warn ∨
    lvl = ZapLevel.error

/-- A merged key fails to decode exactly when it is present-but-bad. -/
theorem resolveField_eq_none_iff {α : Type} (d : α) (f e : FieldVal α) :
    resolveField d f e = none ↔ (f.withFallback e).isBad = true := by
  cases e <;> cases f <;>
    simp [resolveField, FieldVal.withFallback, FieldVal.isBad]

/-- A key that decoded was not bad. -/
theorem isBad_false_of_resolveField_some {α : Type} {d a : α}
    {f e : FieldVal α} (h : resolveField d f e = some a) :
    (f.withFallback e).isBad = false := by
  cases hb : (f.withFallback e).isBad
  · rfl
  · rw [(resolveField_eq_none_iff d f e).mpr hb] at h
    exact Option.noConfusion h

/-- A key that is not bad decodes to some value. -/
theorem resolveField_some_of_not_bad {α : Type} (d : α) {f e : FieldVal α}
    (h : (f.withFallback e).isBad = false) :
    ∃ a, resolveField d f e = some a := by
  cases ho : resolveField d f e
  · rw [resolveField_eq_none_iff] at ho
    rw [ho] at h
    exact Bool.noConfusion h
  · exact ⟨_, rfl⟩

/-- The unmarshal step succeeds exactly when no merged key is bad. -/
theorem loadConfigOpt_isSome_iff (f e : PartialConfig) :
    (loadConfigOpt f e).isSome = true ↔ mergedBad f e = false := by
  constructor
  · intro h
    obtain ⟨c, hc⟩ := Option.isSome_iff_exists.mp h
    simp only [loadConfigOpt, Option.pure_def, Option.bind_eq_bind,
      Option.bind_eq_some] at hc
    obtain ⟨l, hl, fm, hfm, od, hod, ms, hms, mb, hmb, ma, hma, cp, hcp, _⟩ := hc
    simp [mergedBad, isBad_false_of_resolveField_some hl,
      isBad_false_of_resolveField_some hfm, isBad_false_of_resolveField_some hod,
      isBad_false_of_resolveField_some hms, isBad_false_of_resolveField_some hmb,
      isBad_false_of_resolveField_some hma, isBad_false_of_resolveField_some hcp]
  · intro h
    simp only [mergedBad, Bool.or_eq_false_iff] at h
    obtain ⟨⟨⟨⟨⟨⟨h1, h2⟩, h3⟩, h4⟩, h5⟩, h6⟩, h7⟩ := h
    obtain ⟨l, hl⟩ := resolveField_some_of_not_bad "info" h1
    obtain ⟨fm, hfm⟩ := resolveField_some_of_not_bad "text" h2
    obtain ⟨od, hod⟩ := resolveField_some_of_not_bad "./log" h3
    obtain ⟨ms, hms⟩ := resolveField_some_of_not_bad 10 h4
    obtain ⟨mb, hmb⟩ := resolveField_some_of_not_bad 7 h5
    obtain ⟨ma, hma⟩ := resolveField_some_of_not_bad 7 h6
    obtain ⟨cp, hcp⟩ := resolveField_some_of_not_bad false h7
    simp [loadConfigOpt, hl, hfm, hod, hms, hmb, hma, hcp]

/-- C3 (amended): configuration resolution lets no exception escape and a
configuration source that fails YAML parsing is only logged — resolution
still completes with a fully-populated LogConfig (the defaults, absent
environment input) — but resolution is not total: when the merged settings
fail to unmarshal into the config struct (some present key does not decode
to its field type), loadConfig kills the process via log.Fatalf (logging.go
line 101) instead of completing. -/
theorem loadConfig_completes_unless_unmarshal_fails (src : ConfigSource)
    (env : PartialConfig) :
    (loadConfig src env = LoadOutcome.processKilled ↔
      mergedBad src.settings env = true)
    ∧ loadConfig ConfigSource.malformed emptyPartial =
        LoadOutcome.completed defaultLogConfig := by
  constructor
  · have hiff := loadConfigOpt_isSome_iff src.settings env
    unfold loadConfig
    cases ho : loadConfigOpt src.settings env with
    | none =>
      rw [ho] at hiff
      simp only [Option.isSome_none, Bool.false_eq_true, false_iff,
        Bool.not_eq_false] at hiff
      simp [hiff]
    | some c =>
      rw [ho] at hiff
      simp only [Option.isSome_some] at hiff
      have hb : mergedBad src.settings env = false := hiff.mp trivial
      simp [hb]
  · rfl

/-- C3 counterexample: a configuration source that exists and parses as
YAML but whose `logger.level` value is not decodable as a string (for
example a YAML list) makes loadConfig kill the process — refuting
"configuration resolution never kills the process ... for every input,
including a configuration source that exists but is malformed". -/
theorem loadConfig_kills_on_undecodable_field :
    loadConfig
      (ConfigSource.parsed
        ⟨FieldVal.badType, FieldVal.absent, FieldVal.absent, FieldVal.absent,
          FieldVal.absent, FieldVal.absent, FieldVal.absent⟩)
      emptyPartial = LoadOutcome.processKilled := rfl

/-- Witness for C3: the malformed-YAML source with no environment input
completes with the defaults, and a source whose level key is present but
undecodable is exactly the kill condition of the amended statement. -/
theorem loadConfig_completes_unless_unmarshal_fails_witness :
    loadConfig ConfigSource.malformed emptyPartial =
      LoadOutcome.completed defaultLogConfig :=
  (loadConfig_completes_unless_unmarshal_fails ConfigSource.malformed
    emptyPartial).2

/-- C7: the resolution precedence for the level is defaults, then the
configuration source, then the environment, then the programmatic override,
and an override whose Level is empty does not shadow the lower layers: a
non-empty override wins; with an empty override a present environment value
wins; with the environment absent a present file value wins; with both
absent the default "info" stands.  The spec's scenario (file warn,
environment error, override empty ⇒ error) is the second conjunct. -/
theorem level_precedence (p e : PartialConfig) (o : LogConfig)
    (s s' : GlobalState)
    (hInit : Init (ConfigSource.parsed p) e (some o) s = some s') :
    (o.Level ≠ "" → s'.currentConfig.Level = o.Level)
    ∧ (o.Level = "" → ∀ lv : String, e.level = FieldVal.ok lv →
        s'.currentConfig.Level = lv)
    ∧ (o.Level = "" → e.level = FieldVal.absent → ∀ lv : String,
        p.level = FieldVal.ok lv → s'.currentConfig.Level = lv)
    ∧ (o.Level = "" → e.level = FieldVal.absent → p.level = FieldVal.absent →
        s'.currentConfig.Level = "info") := by
  unfold Init at hInit
  cases hl : loadConfig (ConfigSource.parsed p) e with
  | processKilled => rw [hl] at hInit; exact Option.noConfusion hInit
  | completed cfg =>
    rw [hl] at hInit
    injection hInit with hs
    have hcfg : loadConfigOpt p e = some cfg := by
      unfold loadConfig at hl
      cases ho : loadConfigOpt (ConfigSource.parsed p).settings e with
      | none => rw [ho] at hl; exact LoadOutcome.noConfusion hl
      | some c =>
        rw [ho] at hl
        injection hl with hc
        rw [← hc]
        exact ho
    simp only [loadConfigOpt, Option.pure_def, Option.bind_eq_bind,
      Option.bind_eq_some, Option.some.injEq] at hcfg
    obtain ⟨l, hlvl, fm, hfm, od, hod, ms, hms, mb, hmb, ma, hma, cp, hcp,
      hpure⟩ := hcfg
    have hLev : cfg.Level = l := by rw [← hpure]
    refine ⟨fun h => ?_, fun h lv hev => ?_, fun h hev lv hpv => ?_,
      fun h hev hpv => ?_⟩
    · rw [← hs]
      simp [applyOverride, h]
    · have : resolveField "info" p.level e.level = some lv := by
        simp [resolveField, FieldVal.withFallback, hev]
      rw [hlvl] at this
      injection this with hv
      rw [← hs]
      simp [applyOverride, h, hLev, hv]
    · have : resolveField "info" p.level e.level = some lv := by
        simp [resolveField, FieldVal.withFallback, hev, hpv]
      rw [hlvl] at this
      injection this with hv
      rw [← hs]
      simp [applyOverride, h, hLev, hv]
    · have : resolveField "info" p.level e.level = some "info" := by
        simp [resolveField, FieldVal.withFallback, hev, hpv]
      rw [hlvl] at this
      injection this with hv
      rw [← hs]
      simp [applyOverride, h, hLev, hv]

/-- Witness for C7, the spec's scenario: a parsed source with level "warn",
an environment with level "error", an override struct with empty Level (the
zero config), starting from the pre-Init state: the stored effective level
is "error". -/
theorem level_precedence_witness :
    Init
        (ConfigSource.parsed
          ⟨FieldVal.ok "warn", FieldVal.absent, FieldVal.absent,
            FieldVal.absent, FieldVal.absent, FieldVal.absent,
            FieldVal.absent⟩)
        ⟨FieldVal.ok "error", FieldVal.absent, FieldVal.absent,
          FieldVal.absent, FieldVal.absent, FieldVal.absent, FieldVal.absent⟩
        (some zeroLogConfig) initialState =
      some ⟨some (NewLoggerFromConfig ⟨"error", "text", "./log", 10, 7, 7,
        false⟩ "All"), ⟨"error", "text", "./log", 10, 7, 7, false⟩⟩
    ∧ (GlobalState.mk (some (NewLoggerFromConfig ⟨"error", "text", "./log",
        10, 7, 7, false⟩ "All")) ⟨"error", "text", "./log", 10, 7, 7,
        false⟩).currentConfig.Level = "error" :=
  ⟨rfl,
   (level_precedence
      ⟨FieldVal.ok "warn", FieldVal.absent, FieldVal.absent, FieldVal.absent,
        FieldVal.absent, FieldVal.absent, FieldVal.absent⟩
      ⟨FieldVal.ok "error", FieldVal.absent, FieldVal.absent,
        FieldVal.absent, FieldVal.absent, FieldVal.absent, FieldVal.absent⟩
      zeroLogConfig initialState
      ⟨some (NewLoggerFromConfig ⟨"error", "text", "./log", 10, 7, 7,
        false⟩ "All"), ⟨"error", "text", "./log", 10, 7, 7, false⟩⟩
      rfl).2.1 rfl "error" rfl⟩

/-- C5: for every configured threshold and every non-fatal emit, a record
below the threshold produces zero writes on every sink of the pipeline,
and a record at or above the threshold reaches every sink the pipeline
owns, carrying the same record; the check is the single shared atomic-level
test, made once per emit (the write list is all-or-nothing). -/
theorem threshold_gates_all_sinks (cfg : LogConfig) (name : String)
    (lvl : ZapLevel) (msg : String) (fields : List Field)
    (_hnf : nonFatalLevel lvl) :
    (lvl.toInt < (stringToZapLevel cfg.Level).toInt →
      (NewLoggerFromConfig cfg name).write lvl msg fields = [])
    ∧ ((stringToZapLevel cfg.Level).toInt ≤ lvl.toInt →
      ((NewLoggerFromConfig cfg name).write lvl msg fields).map Prod.fst
        = (NewLoggerFromConfig cfg name).core.cores.map SubCore.sink
      ∧ ∀ pr ∈ (NewLoggerFromConfig cfg name).write lvl msg fields,
          pr.2 = ⟨lvl, msg, (NewLoggerFromConfig cfg name).contextFields
            ++ fields⟩) := by
  have hthr : (NewLoggerFromConfig cfg name).core.threshold
      = stringToZapLevel cfg.Level := by
    unfold NewLoggerFromConfig newCoreFromConfig
    split <;> rfl
  refine ⟨fun hlt => ?_, fun hle => ⟨?_, ?_⟩⟩
  · have hn : ¬ ((NewLoggerFromConfig cfg name).core.threshold.toInt
        ≤ lvl.toInt) := by rw [hthr]; omega
    simp [ZapLogger.write, hn]
  · rw [ZapLogger.write, if_pos (hthr ▸ hle)]
    simp
  · intro pr hpr
    rw [ZapLogger.write, if_pos (hthr ▸ hle)] at hpr
    simp only [List.mem_map] at hpr
    obtain ⟨sc, _, hsc⟩ := hpr
    rw [← hsc]

/-- Witness for C5 at level threshold "warn" for service "API": a debug
record produces no writes, an error record reaches both sinks. -/
theorem threshold_gates_all_sinks_witness :
    (NewLoggerFromConfig ⟨"warn", "text", "./log", 10, 7, 7, false⟩
      "API").write ZapLevel.debug "x" [] = []
    ∧ ((NewLoggerFromConfig ⟨"warn", "text", "./log", 10, 7, 7, false⟩
        "API").write ZapLevel.error "x" []).map Prod.fst
      = (NewLoggerFromConfig ⟨"warn", "text", "./log", 10, 7, 7, false⟩
        "API").core.cores.map SubCore.sink :=
  ⟨(threshold_gates_all_sinks ⟨"warn", "text", "./log", 10, 7, 7, false⟩
      "API" ZapLevel.debug "x" [] (Or.inl rfl)).1 (by decide),
   ((threshold_gates_all_sinks ⟨"warn", "text", "./log", 10, 7, 7, false⟩
      "API" ZapLevel.error "x" [] (Or.inr (Or.inr (Or.inr rfl)))).2
      (by decide)).1⟩

/-- C6: the aggregate pipeline (service name "All") never has a console
sink: for every configuration its sink list is exactly the one rotating
file, and no record routed through the aggregate logger is ever delivered
to the console, regardless of level or format. -/
theorem aggregate_never_console (cfg : LogConfig) (lvl : ZapLevel)
    (msg : String) (fields : List Field) :
    ((NewLoggerFromConfig cfg "All").core.cores.map SubCore.sink
      = [Sink.file (getLumberjack (filepathJoin cfg.OutputDir ("All" ++ ".log"))
          cfg.MaxSizeMB cfg.MaxBackupFiles cfg.MaxAgeDays cfg.Compress)])
    ∧ ∀ pr ∈ (NewLoggerFromConfig cfg "All").write lvl msg fields,
        pr.1 ≠ Sink.console := by
  constructor
  · simp [NewLoggerFromConfig, newCoreFromConfig, getLumberjack]
  · intro pr hpr
    simp only [NewLoggerFromConfig, newCoreFromConfig, ZapLogger.write,
      if_true, reduceIte] at hpr
    split at hpr
    · simp only [List.map_cons, List.map_nil] at hpr
      cases hpr with
      | head => simp
      | tail _ h => cases h
    · simp at hpr

/-- Witness for C6 at the default configuration: the aggregate sink list is
the single rotating file at ./log/All.log and the one pair the aggregate
write produces is not the console. -/
theorem aggregate_never_console_witness :
    ((NewLoggerFromConfig defaultLogConfig "All").core.cores.map SubCore.sink
      = [Sink.file (getLumberjack (filepathJoin defaultLogConfig.OutputDir
          ("All" ++ ".log")) defaultLogConfig.MaxSizeMB
          defaultLogConfig.MaxBackupFiles defaultLogConfig.MaxAgeDays
          defaultLogConfig.Compress)])
    ∧ (Sink.file (getLumberjack "./log/All.log" 10 7 7 false),
        (⟨ZapLevel.info, "x", []⟩ : LogRecord)).1 ≠ Sink.console :=
  ⟨(aggregate_never_console defaultLogConfig ZapLevel.info "x" []).1,
   (aggregate_never_console defaultLogConfig ZapLevel.info "x" []).2
     (Sink.file (getLumberjack "./log/All.log" 10 7 7 false),
       ⟨ZapLevel.info, "x", []⟩) (by decide)⟩

/-- C4: with mirror=true, a record emitted through a non-fatal level
operation that passes the shared threshold appears in the aggregate stream
exactly once — as the single write to the aggregate's one file sink — with
exactly one field prepended, first in the ordered field list, holding the
originating service name; with mirror=false the aggregate output of an emit
is always empty.  (Below the shared threshold neither the service's own
sinks nor the aggregate receive the record, so no record is "emitted".) -/
theorem mirror_aggregate_exactly_once (cfg : LogConfig) (name : String)
    (mirror : Bool) (lvl : ZapLevel) (msg : String) (fields : List Field)
    (_hnf : nonFatalLevel lvl) :
    (mirror = true → (stringToZapLevel cfg.Level).toInt ≤ lvl.toInt →
      ((NewServiceLogger ⟨some (NewLoggerFromConfig cfg "All"), cfg⟩ name
          mirror).emit (NewLoggerFromConfig cfg "All") lvl msg fields).agg
        = [(Sink.file (getLumberjack (filepathJoin cfg.OutputDir
              ("All" ++ ".log")) cfg.MaxSizeMB cfg.MaxBackupFiles
              cfg.MaxAgeDays cfg.Compress),
            ⟨lvl, msg, ⟨"service_name", name⟩ :: fields⟩)])
    ∧ (mirror = false →
      ((NewServiceLogger ⟨some (NewLoggerFromConfig cfg "All"), cfg⟩ name
          mirror).emit (NewLoggerFromConfig cfg "All") lvl msg fields).agg
        = []) := by
  refine ⟨fun hm hle => ?_, fun hm => ?_⟩
  · simp only [NewServiceLogger, LoggerBase.emit, hm, if_true]
    rw [NewLoggerFromConfig, if_pos rfl, ZapLogger.write]
    rw [if_pos]
    · simp [newCoreFromConfig, getLumberjack]
    · exact hle
  · simp [NewServiceLogger, LoggerBase.emit, hm]

/-- Witness for C4 at the default configuration: service "API" with
mirror=true emitting an info record puts exactly one tagged record in the
aggregate file; with mirror=false the aggregate output is empty. -/
theorem mirror_aggregate_exactly_once_witness :
    ((NewServiceLogger ⟨some (NewLoggerFromConfig defaultLogConfig "All"),
        defaultLogConfig⟩ "API" true).emit
        (NewLoggerFromConfig defaultLogConfig "All") ZapLevel.info "hi" []).agg
      = [(Sink.file (getLumberjack (filepathJoin defaultLogConfig.OutputDir
            ("All" ++ ".log")) defaultLogConfig.MaxSizeMB
            defaultLogConfig.MaxBackupFiles defaultLogConfig.MaxAgeDays
            defaultLogConfig.Compress),
          ⟨ZapLevel.info, "hi", [⟨"service_name", "API"⟩]⟩)]
    ∧ ((NewServiceLogger ⟨some (NewLoggerFromConfig defaultLogConfig "All"),
        defaultLogConfig⟩ "API" false).emit
        (NewLoggerFromConfig defaultLogConfig "All") ZapLevel.info "hi"
        []).agg = [] :=
  ⟨(mirror_aggregate_exactly_once defaultLogConfig "API" true ZapLevel.info
      "hi" [] (Or.inr (Or.inl rfl))).1 rfl (by decide),
   (mirror_aggregate_exactly_once defaultLogConfig "API" false ZapLevel.info
      "hi" [] (Or.inr (Or.inl rfl))).2 rfl⟩

/-- C1: the `compress` boolean override is applied only when the override's
`Compress` value is `false`: a `false` override always forces the effective
value to `false`, a `true` override leaves the resolved value unchanged —
in particular resolved `true` with override `false` yields `false`, and
resolved `false` with override `true` stays `false` (a `true` override never
forces compression on). -/
theorem compress_override_asymmetry (resolved o : LogConfig) :
    (o.Compress = false → (applyOverride resolved o).Compress = false)
    ∧ (o.Compress = true → (applyOverride resolved o).Compress = resolved.Compress)
    ∧ (resolved.Compress = true → o.Compress = false →
        (applyOverride resolved o).Compress = false)
    ∧ (resolved.Compress = false → o.Compress = true →
        (applyOverride resolved o).Compress = false) := by
  refine ⟨fun h => ?_, fun h => ?_, fun h1 h2 => ?_, fun h1 h2 => ?_⟩ <;>
    simp [applyOverride, *]

/-- Witness for C1 at concrete configs: resolved compress `true` overridden
by `false` becomes `false`, resolved `false` overridden by `true` stays
`false`. -/
theorem compress_override_asymmetry_witness :
    (applyOverride ⟨"info", "text", "./log", 10, 7, 7, true⟩
        ⟨"", "", "", 0, 0, 0, false⟩).Compress = false
    ∧ (applyOverride ⟨"info", "text", "./log", 10, 7, 7, false⟩
        ⟨"", "", "", 0, 0, 0, true⟩).Compress = false :=
  ⟨(compress_override_asymmetry ⟨"info", "text", "./log", 10, 7, 7, true⟩
      ⟨"", "", "", 0, 0, 0, false⟩).2.2.1 rfl rfl,
   (compress_override_asymmetry ⟨"info", "text", "./log", 10, 7, 7, false⟩
      ⟨"", "", "", 0, 0, 0, true⟩).2.2.2 rfl rfl⟩

/-- C8: the string-to-level mapping is total: every input string resolves to
one of the four enum values debug, info, warn, error, and every string whose
lowercase form is not one of the four keywords falls back to info. -/
theorem stringToZapLevel_total (s : String) :
    (stringToZapLevel s = ZapLevel.debug ∨ stringToZapLevel s = ZapLevel.info ∨
      stringToZapLevel s = ZapLevel.warn ∨ stringToZapLevel s = ZapLevel.error)
    ∧ (goToLower s ≠ "debug" → goToLower s ≠ "info" → goToLower s ≠ "warn" →
        goToLower s ≠ "error" → stringToZapLevel s = ZapLevel.info) := by
  refine ⟨stringToZapLevel_cases s, fun h1 h2 h3 h4 => ?_⟩
  unfold stringToZapLevel
  split <;> simp_all

/-- Witness for C8: the unrecognized string "verbose" falls back to info. -/
theorem stringToZapLevel_total_witness :
    stringToZapLevel "verbose" = ZapLevel.info :=
  (stringToZapLevel_total "verbose").2 (by decide) (by decide) (by decide)
    (by decide)

/-- C10: an integer override field whose value is 0 is treated as absent and
never shadows the resolved value; consequently the programmatic override can
never drive `MaxBackupFiles` or `MaxAgeDays` to 0 when the resolved value is
non-zero, even though 0 is itself a valid non-negative configuration value. -/
theorem zero_int_override_is_absent (cfg o : LogConfig) :
    (o.MaxSizeMB = 0 → (applyOverride cfg o).MaxSizeMB = cfg.MaxSizeMB)
    ∧ (o.MaxBackupFiles = 0 →
        (applyOverride cfg o).MaxBackupFiles = cfg.MaxBackupFiles)
    ∧ (o.MaxAgeDays = 0 → (applyOverride cfg o).MaxAgeDays = cfg.MaxAgeDays)
    ∧ (cfg.MaxBackupFiles ≠ 0 → (applyOverride cfg o).MaxBackupFiles ≠ 0)
    ∧ (cfg.MaxAgeDays ≠ 0 → (applyOverride cfg o).MaxAgeDays ≠ 0) := by
  refine ⟨fun h => ?_, fun h => ?_, fun h => ?_, fun h => ?_, fun h => ?_⟩ <;>
    simp [applyOverride, *] <;> split <;> simp_all

/-- Witness for C10: an override of 0 for every int field leaves the
resolved rotation settings (10, 7, 7) intact, and an override cannot zero
the backup and age fields. -/
theorem zero_int_override_is_absent_witness :
    (applyOverride ⟨"info", "text", "./log", 10, 7, 7, false⟩
        ⟨"", "", "", 0, 0, 0, false⟩).MaxSizeMB = 10
    ∧ (applyOverride ⟨"info", "text", "./log", 10, 7, 7, false⟩
        ⟨"", "", "", 0, 0, 0, false⟩).MaxBackupFiles = 7
    ∧ (applyOverride ⟨"info", "text", "./log", 10, 7, 7, false⟩
        ⟨"", "", "", 0, 0, 0, false⟩).MaxAgeDays = 7
    ∧ (applyOverride ⟨"info", "text", "./log", 10, 7, 7, false⟩
        ⟨"", "", "", 0, 0, 0, false⟩).MaxAgeDays ≠ 0 := by
  refine ⟨?_, ?_, ?_, ?_⟩
  · exact (zero_int_override_is_absent ⟨"info", "text", "./log", 10, 7, 7, false⟩
      ⟨"", "", "", 0, 0, 0, false⟩).1 rfl
  · exact (zero_int_override_is_absent ⟨"info", "text", "./log", 10, 7, 7, false⟩
      ⟨"", "", "", 0, 0, 0, false⟩).2.1 rfl
  · exact (zero_int_override_is_absent ⟨"info", "text", "./log", 10, 7, 7, false⟩
      ⟨"", "", "", 0, 0, 0, false⟩).2.2.1 rfl
  · exact (zero_int_override_is_absent ⟨"info", "text", "./log", 10, 7, 7, false⟩
      ⟨"", "", "", 0, 0, 0, false⟩).2.2.2.2 (by decide)

/-- C9: with mirroring enabled, Fatal first emits a DPanic-level (non-fatal
on a production logger) diagnostic to the aggregate pipeline's single file
sink, carrying the originating service name and the explicit
FATAL/Exit marker as its first two fields, before the terminating write on
the logger's own pipeline; and for every mirror setting the trace ends in
process termination. -/
theorem fatal_mirrors_then_exits (cfg : LogConfig) (name : String)
    (mirror : Bool) (msg : String) (fields : List Field) :
    (((NewServiceLogger ⟨some (NewLoggerFromConfig cfg "All"), cfg⟩ name
        mirror).Fatal (NewLoggerFromConfig cfg "All") msg fields).getLast?
      = some Effect.processExit)
    ∧ (mirror = true →
      (NewServiceLogger ⟨some (NewLoggerFromConfig cfg "All"), cfg⟩ name
          mirror).Fatal (NewLoggerFromConfig cfg "All") msg fields
        = Effect.aggWrite
            (Sink.file (getLumberjack (filepathJoin cfg.OutputDir
              ("All" ++ ".log")) cfg.MaxSizeMB cfg.MaxBackupFiles
              cfg.MaxAgeDays cfg.Compress))
            ⟨ZapLevel.dpanic, msg,
              ⟨"service_name", name⟩ :: ⟨"FATAL", "Exit"⟩ :: fields⟩
          :: (((NewServiceLogger ⟨some (NewLoggerFromConfig cfg "All"), cfg⟩
              name mirror).Logger.write ZapLevel.fatal msg fields).map
              fun pr => Effect.ownWrite pr.1 pr.2)
          ++ [Effect.processExit]) := by
  constructor
  · unfold LoggerBase.Fatal
    rw [List.getLast?_concat]
  · intro hm
    have h3 : (stringToZapLevel cfg.Level).toInt ≤ ZapLevel.dpanic.toInt :=
      le_trans (stringToZapLevel_toInt_le_two cfg.Level) (by decide)
    unfold LoggerBase.Fatal
    simp only [NewServiceLogger, hm, if_true]
    rw [NewLoggerFromConfig, if_pos rfl, ZapLogger.write]
    rw [if_pos]
    · simp [newCoreFromConfig, getLumberjack]
    · exact h3

/-- Witness for C9 at the default configuration: service "API" with
mirroring on; the trace starts with the tagged aggregate diagnostic and
ends with process exit. -/
theorem fatal_mirrors_then_exits_witness :
    (((NewServiceLogger ⟨some (NewLoggerFromConfig defaultLogConfig "All"),
        defaultLogConfig⟩ "API" true).Fatal
        (NewLoggerFromConfig defaultLogConfig "All") "boom" []).getLast?
      = some Effect.processExit)
    ∧ ((NewServiceLogger ⟨some (NewLoggerFromConfig defaultLogConfig "All"),
        defaultLogConfig⟩ "API" true).Fatal
        (NewLoggerFromConfig defaultLogConfig "All") "boom" []
      = Effect.aggWrite
          (Sink.file (getLumberjack (filepathJoin
            defaultLogConfig.OutputDir ("All" ++ ".log"))
            defaultLogConfig.MaxSizeMB defaultLogConfig.MaxBackupFiles
            defaultLogConfig.MaxAgeDays defaultLogConfig.Compress))
          ⟨ZapLevel.dpanic, "boom",
            ⟨"service_name", "API"⟩ :: ⟨"FATAL", "Exit"⟩ :: []⟩
        :: (((NewServiceLogger ⟨some (NewLoggerFromConfig defaultLogConfig
            "All"), defaultLogConfig⟩ "API" true).Logger.write
            ZapLevel.fatal "boom" []).map
            fun pr => Effect.ownWrite pr.1 pr.2)
        ++ [Effect.processExit]) :=
  ⟨(fatal_mirrors_then_exits defaultLogConfig "API" true "boom" []).1,
   (fatal_mirrors_then_exits defaultLogConfig "API" true "boom" []).2 rfl⟩

/-- C2 counterexample: calling NewServiceLogger before Init has run (global
state: `all` nil, `currentConfig` the zero value) does not fail and does not
return an invalid handle: it returns the same fully-bound LoggerBase a
normal construction from the zero config would produce, and that handle's
own pipeline is the usual console+file tee which accepts an info-level
write (the zero config's empty level string resolves to info) — refuting
"it returns an error or invalid handle rather than a usable
ServiceLogger". -/
theorem newServiceLogger_preInit_returns_usable_handle :
    NewServiceLogger initialState "API" true
      = ⟨NewLoggerFromConfig zeroLogConfig "API", true, "API"⟩
    ∧ (NewServiceLogger initialState "API" true).Logger.write ZapLevel.info
        "hello" []
      = [(Sink.console,
          ⟨ZapLevel.info, "hello", [⟨"service_name", "API"⟩]⟩),
         (Sink.file (getLumberjack "API.log" 0 0 0 false),
          ⟨ZapLevel.info, "hello", [⟨"service_name", "API"⟩]⟩)] := by
  exact ⟨rfl, by decide⟩

/-- C2 (amended): NewServiceLogger performs no Init check and never fails:
before Init it silently returns a working LoggerBase built from the
zero-valued stored config — its own pipeline is the standard console+file
tee and delivers info-level writes to both sinks — and after any Init that
returns, it builds the pipeline from the currently stored process-wide
config. -/
theorem newServiceLogger_never_fails (name : String) (mirror : Bool)
    (msg : String) (fields : List Field) (hname : name ≠ "All") :
    ((NewServiceLogger initialState name mirror).Logger.write ZapLevel.info
        msg fields).map Prod.fst
      = [Sink.console, Sink.file (getLumberjack (name ++ ".log") 0 0 0 false)]
    ∧ ∀ (src : ConfigSource) (env : PartialConfig) (o : Option LogConfig)
        (s s' : GlobalState), Init src env o s = some s' →
        NewServiceLogger s' name mirror
          = ⟨NewLoggerFromConfig s'.currentConfig name, mirror, name⟩ := by
  constructor
  · have hz : stringToZapLevel "" = ZapLevel.info := by decide
    simp only [NewServiceLogger, initialState, NewLoggerFromConfig,
      if_neg hname, ZapLogger.write, newCoreFromConfig, zeroLogConfig, hz,
      filepathJoin, getLumberjack]
    rw [if_pos (by decide)]
    simp
  · intro src env o s s' _
    rfl

/-- Witness for C2 at service "API": the pre-Init handle's own pipeline
delivers an info write to the console and to the rotating file API.log. -/
theorem newServiceLogger_never_fails_witness :
    ((NewServiceLogger initialState "API" true).Logger.write ZapLevel.info
        "hello" []).map Prod.fst
      = [Sink.console,
         Sink.file (getLumberjack ("API" ++ ".log") 0 0 0 false)] :=
  (newServiceLogger_never_fails "API" true "hello" [] (by decide)).1

end LkLogger
